import Mathlib

/-!
Verification development for the two AWS provisioning scripts of this
repository: `vpc.py` (single-instance variant) and `vpc-loadbalancer.py`
(load-balanced variant).  Each script is a linear, synchronous sequence of
cloud-provider calls.  We embed the scripts shallowly:

* pure helper functions (`latest_ubuntu_ami`, the key-pair duplicate
  classification) become Lean functions over the provider's response data;
* the imperative `main` pipelines become state-passing interpreters that
  record every provider call, and every `print`, as an event in a trace;
* provider-returned resource identifiers (opaque strings in the source)
  are represented by the natural number allocated at the call that
  produced them, so that identifier flow between calls is explicit;
* provider behaviour (responses, injected failures) is supplied by an
  environment value, so the theorems quantify over provider behaviour.
-/

/-! ## Basic string machinery (Python's `in` operator on strings) -/

/-- `matchesAt needle hay`: `needle` occurs at the head of `hay`. -/
def matchesAt : List Char → List Char → Bool
  | [], _ => true
  | _ :: _, [] => false
  | a :: as, b :: bs => a == b && matchesAt as bs

/-- `containsL needle hay`: `needle` occurs contiguously somewhere in `hay`. -/
def containsL (needle : List Char) : List Char → Bool
  | [] => matchesAt needle []
  | c :: cs => matchesAt needle (c :: cs) || containsL needle cs

/-- Python's `needle in s` substring test. -/
def strContains (s pat : String) : Bool :=
  containsL pat.toList s.toList

/-! ## Exceptions and provider responses -/

/-- A Python exception as the scripts can observe it: either a botocore
`ClientError` (identified in the source only through its string
representation) or any other exception. -/
inductive Exc where
  | clientError (msg : String)
  | otherError (msg : String)
  deriving DecidableEq, Repr

/-- Outcome of the provider's `create_key_pair` call: the key material on
success, or a raised exception. -/
inductive CallResp where
  | ok (material : String)
  | exc (e : Exc)
  deriving DecidableEq, Repr

/-- The local private-key file: contents and permission bits
(`os.chmod(KEY_FILE, 0o400)`). -/
structure KeyFile where
  contents : String
  mode : Nat
  deriving DecidableEq, Repr

/-- The error-code substring the scripts look for in `str(e)`. -/
def dupToken : String := "InvalidKeyPair.Duplicate"

/-! ## The key-pair handler (`vpc.py` lines 54-68, `vpc-loadbalancer.py`
lines 49-60; the classification logic is textually identical in both). -/

/-- Embeds `create_key_pair` of `vpc.py`: on a successful provider call
the key material is written to the local file with mode `0o400`; on a
`ClientError` whose string representation contains
`InvalidKeyPair.Duplicate` it returns normally leaving the file untouched;
any other `ClientError` is re-raised, and non-`ClientError` exceptions are
not intercepted.  Returns the resulting local file together with a flag
recording whether this invocation wrote it. -/
def create_key_pair : CallResp → Option KeyFile → Except Exc (Option KeyFile × Bool)
  | .ok material, _ => .ok (some ⟨material, 0o400⟩, true)
  | .exc (.clientError msg), file =>
      if strContains msg dupToken then .ok (file, false)
      else .error (.clientError msg)
  | .exc (.otherError msg), _ => .error (.otherError msg)

/-- Embeds `ensure_key_pair` of `vpc-loadbalancer.py`; its response
handling is identical to `create_key_pair` of `vpc.py` (the two functions
differ only in the text they print, which the pipeline embeddings carry). -/
def ensure_key_pair : CallResp → Option KeyFile → Except Exc (Option KeyFile × Bool) :=
  create_key_pair

/-- The string representation of the provider's duplicate-name
`ClientError` (botocore formats the error code into the message). -/
def awsDupMsg : String :=
  "An error occurred (InvalidKeyPair.Duplicate) when calling the CreateKeyPair operation: The keypair already exists."

/-- Modelled from the spec: the cloud provider's `create_key_pair`
operation (external collaborator, spec section 4.1) — creating a name that
already exists raises a duplicate-name `ClientError`; otherwise the call
succeeds, returns fresh key material and registers the name. -/
def providerKeyResp (existing : List String) (name material : String) :
    CallResp × List String :=
  if existing.contains name then (.exc (.clientError awsDupMsg), existing)
  else (.ok material, name :: existing)

/-! ## The image resolver -/

/-- An entry of the `describe_images` response, with the two fields the
scripts read. -/
structure Image where
  imageId : String
  creationDate : String
  deriving DecidableEq, Repr

/-- Python's `max(x :: xs, key=key)`: fold keeping the current maximum,
replacing it only on strictly greater keys (so the first maximal element
wins). -/
def pyMaxBy (key : Image → String) (x : Image) (xs : List Image) : Image :=
  xs.foldl (fun cur y => if key cur < key y then y else cur) x

theorem pyMaxBy_cons (key : Image → String) (x y : Image) (ys : List Image) :
    pyMaxBy key x (y :: ys) = pyMaxBy key (if key x < key y then y else x) ys := rfl

theorem pyMaxBy_mem (key : Image → String) (x : Image) (xs : List Image) :
    pyMaxBy key x xs ∈ x :: xs := by
  induction xs generalizing x with
  | nil => simp [pyMaxBy]
  | cons y ys ih =>
    rw [pyMaxBy_cons]
    by_cases h : key x < key y
    · simp only [h, if_true]
      have := ih y
      rcases List.mem_cons.mp this with h1 | h1
      · simp [h1]
      · simp [List.mem_cons, h1]
    · simp only [h, if_false]
      have := ih x
      rcases List.mem_cons.mp this with h1 | h1
      · simp [h1]
      · simp [List.mem_cons, h1]

theorem pyMaxBy_le (key : Image → String) (x : Image) (xs : List Image) :
    ∀ j ∈ x :: xs, key j ≤ key (pyMaxBy key x xs) := by
  induction xs generalizing x with
  | nil =>
    intro j hj
    rcases List.mem_cons.mp hj with h1 | h1
    · subst h1; exact le_refl _
    · cases h1
  | cons y ys ih =>
    intro j hj
    rw [pyMaxBy_cons]
    have hw : key x ≤ key (if key x < key y then y else x) ∧
        key y ≤ key (if key x < key y then y else x) := by
      by_cases h : key x < key y
      · simp only [h, if_true]; exact ⟨le_of_lt h, le_refl _⟩
      · simp only [h, if_false]; exact ⟨le_refl _, le_of_not_lt h⟩
    have hself : key (if key x < key y then y else x) ≤
        key (pyMaxBy key (if key x < key y then y else x) ys) :=
      ih _ _ (List.mem_cons_self _ _)
    rcases List.mem_cons.mp hj with h1 | h1
    · subst h1; exact le_trans hw.1 hself
    · rcases List.mem_cons.mp h1 with h2 | h2
      · subst h2; exact le_trans hw.2 hself
      · exact ih _ _ (List.mem_cons_of_mem _ h2)

namespace Vpc

/-- Embeds `latest_ubuntu_ami` of `vpc.py`: empty response list raises
`ValueError` (not a `ClientError`); otherwise the `ImageId` of
`max(images, key=lambda i: i["CreationDate"])` is returned. -/
def latest_ubuntu_ami : List Image → Except Exc String
  | [] => .error (.otherError "No Ubuntu AMIs found. Check region and filters.")
  | x :: xs => .ok (pyMaxBy (fun i => i.creationDate) x xs).imageId

end Vpc

namespace VpcLb

/-- Embeds `latest_ubuntu_ami` of `vpc-loadbalancer.py`: empty response
list raises `RuntimeError` (not a `ClientError`); otherwise as in `vpc.py`. -/
def latest_ubuntu_ami : List Image → Except Exc String
  | [] => .error (.otherError "No Ubuntu AMIs found")
  | x :: xs => .ok (pyMaxBy (fun i => i.creationDate) x xs).imageId

end VpcLb

/-! ## Shared constants (identical in both scripts) -/

/-- `KEY_NAME = "ec2-keypair"` (both scripts). -/
def KEY_NAME : String := "ec2-keypair"

/-- `KEY_FILE = f"{KEY_NAME}.pem"` (both scripts). -/
def KEY_FILE : String := KEY_NAME ++ ".pem"

/-! ## Trace events

Every provider call and every `print` of a pipeline run is recorded as one
event.  Provider-returned identifiers (opaque strings in the source) are
represented by the `Nat` allocated at the producing call, so identifier
flow is explicit; fixed string arguments are carried verbatim. -/

/-- One entry of an `IpPermissions` list. -/
structure IpPermission where
  ipProtocol : String
  fromPort : Nat
  toPort : Nat
  cidrIp : String
  description : String
  deriving DecidableEq, Repr

/-- A value interpolated into a printed line: a resource identifier or a
plain string. -/
inductive RVal where
  | id (n : Nat)
  | str (s : String)
  deriving DecidableEq, Repr

/-- A printed line: fixed label text plus the interpolated values. -/
structure OutLine where
  label : String
  vals : List RVal
  deriving DecidableEq, Repr

/-- The trace alphabet: one constructor per provider operation the scripts
invoke, plus `printLine` for console output.  `ret` arguments carry the
identifier the call returned. -/
inductive ApiCall where
  | createKeyPair (keyName : String)
  | createVpc (cidr : String) (ret : Nat)
  | waitVpcAvailable (vpc : Nat)
  | modifyVpcAttribute (vpc : Nat) (attr : String)
  | createSubnet (vpc : Nat) (cidr : String) (az : String) (ret : Nat)
  | modifySubnetAttribute (subnet : Nat) (attr : String)
  | createInternetGateway (ret : Nat)
  | attachInternetGateway (igw : Nat) (vpc : Nat)
  | createRouteTable (vpc : Nat) (ret : Nat)
  | createRoute (rtb : Nat) (destCidr : String) (gw : Nat)
  | associateRouteTable (rtb : Nat) (subnet : Nat)
  | createSecurityGroup (vpc : Nat) (groupName : String) (ret : Nat)
  | authorizeIngress (sg : Nat) (perms : List IpPermission)
  | describeImages (ret : Nat)
  | runInstances (image : Nat) (instanceType : String) (keyName : String)
      (subnet : Nat) (sgs : List Nat) (userData : String) (ret : Nat)
  | waitInstanceRunning (insts : List Nat)
  | describeInstances (insts : List Nat)
  | createTargetGroup (name : String) (port : Nat) (vpc : Nat) (ret : Nat)
  | registerTargets (tg : Nat) (targets : List (Nat × Nat))
  | createLoadBalancer (name : String) (subnets : List Nat) (sgs : List Nat) (ret : Nat)
  | createListener (lb : Nat) (port : Nat) (tg : Nat)
  | printLine (line : OutLine)
  deriving DecidableEq, Repr

/-- Provider behaviour for one run: the response to the key-pair creation
call, the image-catalog response, the public address and DNS name the
provider hands out, the wall-clock second (`int(time.time())`), and an
optional injected unexpected failure: the provider call with zero-based
index `failAt` raises `failErr`. -/
structure Env where
  keyResp : CallResp
  images : List Image
  publicIp : String
  dnsName : String
  now : Nat
  failAt : Option Nat
  failErr : Exc

/-- Interpreter state for one run: number of provider calls issued,
next fresh identifier, the event trace, the local key file, the subnets
with `MapPublicIpOnLaunch` set, the subnet each instance was launched
into, and the endpoint values the run computed. -/
structure RunState where
  calls : Nat := 0
  nextId : Nat := 0
  trace : List ApiCall := []
  keyFile : Option KeyFile := none
  mapped : List Nat := []
  instSubnet : List (Nat × Nat) := []
  finalIp : Option String := none
  finalDns : Option String := none

def initState : RunState := {}

/-- The run monad: explicit state, exceptions preserving the state at the
raise point (mirroring that a Python exception leaves already-issued
provider calls issued). -/
abbrev M := EStateM Exc RunState

/-- Record a `print`. -/
def emit (l : OutLine) : M Unit :=
  modify fun s => { s with trace := s.trace ++ [.printLine l] }

/-- Issue a provider call with no interesting return value; an injected
failure at this call index raises after the call is recorded as issued. -/
def apiCall (env : Env) (c : ApiCall) : M Unit := do
  let s ← get
  set { s with calls := s.calls + 1, trace := s.trace ++ [c] }
  if env.failAt = some s.calls then throw env.failErr

/-- Issue a provider call returning a fresh resource identifier. -/
def apiCreate (env : Env) (c : Nat → ApiCall) : M Nat := do
  let s ← get
  set { s with
        calls := s.calls + 1
        nextId := s.nextId + 1
        trace := s.trace ++ [c s.nextId] }
  if env.failAt = some s.calls then throw env.failErr
  pure s.nextId

/-- `ec2.modify_subnet_attribute(SubnetId=…, MapPublicIpOnLaunch={"Value": True})`. -/
def mapSubnetCall (env : Env) (subnet : Nat) : M Unit := do
  apiCall env (.modifySubnetAttribute subnet "MapPublicIpOnLaunch")
  modify fun s => { s with mapped := s.mapped ++ [subnet] }

/-- `ec2.run_instances(...)`, recording which subnet the instance went to. -/
def runInstancesCall (env : Env) (image : Nat) (itype kname : String)
    (subnet : Nat) (sgs : List Nat) (ud : String) : M Nat := do
  let i ← apiCreate env (ApiCall.runInstances image itype kname subnet sgs ud)
  modify fun s => { s with instSubnet := s.instSubnet ++ [(i, subnet)] }
  pure i

/-- `ec2.describe_instances(...)["Reservations"][0]["Instances"][0].get("PublicIpAddress")`.
Modelled from the spec (section 4.3): the provider assigns a public
address exactly to instances whose subnet has `MapPublicIpOnLaunch` set,
and `.get` yields `None` otherwise. -/
def describeInstancesCall (env : Env) (insts : List Nat) : M (Option String) := do
  apiCall env (.describeInstances insts)
  let s ← get
  match insts with
  | [] => pure none
  | i :: _ =>
    match List.lookup i s.instSubnet with
    | some sn => if s.mapped.contains sn then pure (some env.publicIp) else pure none
    | none => pure none

/-- Python's `print` rendering of a possibly-`None` string. -/
def pyOpt : Option String → String
  | none => "None"
  | some s => s

/-- Result of a whole process run: normal exit, or an exception escaping
`main`. -/
inductive TopResult where
  | normalExit (s : RunState)
  | uncaught (e : Exc) (s : RunState)

def TopResult.state : TopResult → RunState
  | .normalExit s => s
  | .uncaught _ s => s

/-- The line `vpc.py`'s top-level handler prints for a caught exception
(`except ClientError as err: print("AWS error:", err)` /
`except Exception as exc: print("Unexpected error:", exc)`). -/
def errLine : Exc → OutLine
  | .clientError m => ⟨"AWS error:", [.str m]⟩
  | .otherError m => ⟨"Unexpected error:", [.str m]⟩

/-! ## The single-instance pipeline (`vpc.py` `main`) -/

namespace Vpc

def REGION : String := "us-east-1"

def VPC_CIDR : String := "10.0.0.0/16"

def SUBNET_CIDR : String := "10.0.1.0/24"

def AVAILABILITY_ZONE : String := REGION ++ "a"

def INSTANCE_TYPE : String := "t2.micro"

def PROJECT_NAME : String := "demo-client"

/-- The `IpPermissions` argument of the single
`authorize_security_group_ingress` call of `vpc.py` (lines 126-142). -/
def ingressPerms : List IpPermission :=
  [⟨"tcp", 22, 22, "0.0.0.0/0", "SSH"⟩,
   ⟨"tcp", 5000, 5000, "0.0.0.0/0", "App Port"⟩]

/-- The `user_data` bootstrap script of `vpc.py` (lines 148-157), after
Python's backslash-newline line continuation inside the literal. -/
def user_data : String :=
  "#!/bin/bash\nset -eux\napt-get update -y\napt-get install -y docker.io\nsystemctl enable --now docker\nusermod -aG docker ubuntu     # default Ubuntu login user\ncurl -L https://github.com/docker/compose/releases/latest/download/docker-compose-linux-x86_64   -o /usr/local/bin/docker-compose\nchmod +x /usr/local/bin/docker-compose\n"

/-- The `create_key_pair()` step as `main` executes it: print, provider
call, then the duplicate-tolerant handling of `create_key_pair`. -/
def create_key_pair_step (env : Env) : M Unit := do
  emit ⟨"Creating new key pair:", [.str KEY_NAME]⟩
  let s ← get
  let resp := if env.failAt = some s.calls then CallResp.exc env.failErr else env.keyResp
  set { s with calls := s.calls + 1, trace := s.trace ++ [ApiCall.createKeyPair KEY_NAME] }
  match create_key_pair resp s.keyFile with
  | .ok (f, wrote) =>
      modify fun s2 => { s2 with keyFile := f }
      if wrote then emit ⟨"Key saved to", [.str KEY_FILE]⟩
      else emit ⟨"Key pair already exists. Skipping creation.", [.str KEY_NAME]⟩
  | .error e => throw e

/-- `ami_id = latest_ubuntu_ami()`: one `describe_images` provider call,
then the selection over the response; an empty response raises. -/
def ami_step (env : Env) : M Nat := do
  let r ← apiCreate env ApiCall.describeImages
  match latest_ubuntu_ami env.images with
  | .error e => throw e
  | .ok _ => pure r

/-- The body of `main` in `vpc.py` (lines 70-190), one event per
statement, in source order. -/
def pipeline (env : Env) : M Unit := do
  create_key_pair_step env
  let vpc_id ← apiCreate env (ApiCall.createVpc VPC_CIDR)
  apiCall env (.waitVpcAvailable vpc_id)
  apiCall env (.modifyVpcAttribute vpc_id "EnableDnsSupport")
  apiCall env (.modifyVpcAttribute vpc_id "EnableDnsHostnames")
  let subnet_id ← apiCreate env (ApiCall.createSubnet vpc_id SUBNET_CIDR AVAILABILITY_ZONE)
  mapSubnetCall env subnet_id
  let igw_id ← apiCreate env ApiCall.createInternetGateway
  apiCall env (.attachInternetGateway igw_id vpc_id)
  let rtb_id ← apiCreate env (ApiCall.createRouteTable vpc_id)
  apiCall env (.createRoute rtb_id "0.0.0.0/0" igw_id)
  apiCall env (.associateRouteTable rtb_id subnet_id)
  let sg_id ← apiCreate env (ApiCall.createSecurityGroup vpc_id (PROJECT_NAME ++ "-sg"))
  apiCall env (.authorizeIngress sg_id ingressPerms)
  let ami_id ← ami_step env
  let instance_id ← runInstancesCall env ami_id INSTANCE_TYPE KEY_NAME subnet_id [sg_id] user_data
  apiCall env (.waitInstanceRunning [instance_id])
  let public_ip ← describeInstancesCall env [instance_id]
  modify fun s => { s with finalIp := public_ip }
  emit ⟨"All resources created:", []⟩
  emit ⟨"VPC:", [.id vpc_id]⟩
  emit ⟨"Subnet:", [.id subnet_id]⟩
  emit ⟨"Internet GW:", [.id igw_id]⟩
  emit ⟨"Route Table:", [.id rtb_id]⟩
  emit ⟨"Security Group:", [.id sg_id]⟩
  emit ⟨"EC2 Instance:", [.id instance_id]⟩
  emit ⟨"Public IP:", [.str (pyOpt public_ip)]⟩
  emit ⟨"SSH command:", []⟩
  emit ⟨"ssh -i", [.str KEY_FILE, .str (pyOpt public_ip)]⟩

def run (env : Env) : EStateM.Result Exc RunState Unit :=
  (pipeline env).run initState

/-- `main` of `vpc.py`: the whole pipeline inside
`try … except ClientError … except Exception`; every exception is printed
and the process exits normally. -/
def main (env : Env) : TopResult :=
  match run env with
  | .ok _ s => .normalExit s
  | .error e s => .normalExit { s with trace := s.trace ++ [.printLine (errLine e)] }

end Vpc

/-! ## The load-balanced pipeline (`vpc-loadbalancer.py` `main`) -/

namespace VpcLb

def REGION : String := "us-east-1"

def PROJECT : String := "lb-demo"

def APP_PORT : Nat := 5000

def INSTANCE_TYPE : String := "t2.micro"

def VPC_CIDR : String := "10.0.0.0/16"

def SUBNET_A_CIDR : String := "10.0.1.0/24"

def SUBNET_B_CIDR : String := "10.0.2.0/24"

def AZ_A : String := REGION ++ "a"

def AZ_B : String := REGION ++ "b"

/-- Ingress rules of the instance security group
(`vpc-loadbalancer.py` lines 96-103); the app rule uses `APP_PORT`. -/
def instIngressPerms : List IpPermission :=
  [⟨"tcp", 22, 22, "0.0.0.0/0", "SSH"⟩,
   ⟨"tcp", APP_PORT, APP_PORT, "0.0.0.0/0", "App"⟩]

/-- Ingress rule of the load-balancer security group (lines 108-112). -/
def albIngressPerms : List IpPermission :=
  [⟨"tcp", 80, 80, "0.0.0.0/0", "HTTP"⟩]

/-- The `user_data` f-string of `vpc-loadbalancer.py` (lines 115-123):
a fixed template with `APP_PORT` substituted twice, after Python's
backslash-newline line continuation. -/
def user_data : String :=
  "#!/bin/bash\nset -eux\napt-get update -y\napt-get install -y docker.io\nsystemctl enable --now docker\nusermod -aG docker ubuntu\ndocker run -d -p " ++ toString APP_PORT ++ ":" ++ toString APP_PORT ++ " --name hello   nginxdemos/hello\n"

/-- The `ensure_key_pair()` step as `main` executes it. -/
def ensure_key_pair_step (env : Env) : M Unit := do
  let s ← get
  let resp := if env.failAt = some s.calls then CallResp.exc env.failErr else env.keyResp
  set { s with calls := s.calls + 1, trace := s.trace ++ [ApiCall.createKeyPair KEY_NAME] }
  match ensure_key_pair resp s.keyFile with
  | .ok (f, wrote) =>
      modify fun s2 => { s2 with keyFile := f }
      if wrote then emit ⟨"New key saved to", [.str KEY_FILE]⟩
      else emit ⟨"Key pair already exists - using it.", [.str KEY_NAME]⟩
  | .error e => throw e

/-- `ami_id = latest_ubuntu_ami()` of the load-balanced variant. -/
def ami_step (env : Env) : M Nat := do
  let r ← apiCreate env ApiCall.describeImages
  match latest_ubuntu_ami env.images with
  | .error e => throw e
  | .ok _ => pure r

/-- The body of `main` in `vpc-loadbalancer.py` (lines 63-176), one event
per statement, in source order (the `for subnet in (subnet_a, subnet_b)`
loops unrolled). -/
def pipeline (env : Env) : M Unit := do
  ensure_key_pair_step env
  let ami_id ← ami_step env
  let vpc_id ← apiCreate env (ApiCall.createVpc VPC_CIDR)
  apiCall env (.modifyVpcAttribute vpc_id "EnableDnsSupport")
  apiCall env (.modifyVpcAttribute vpc_id "EnableDnsHostnames")
  let igw_id ← apiCreate env ApiCall.createInternetGateway
  apiCall env (.attachInternetGateway igw_id vpc_id)
  let rtb_id ← apiCreate env (ApiCall.createRouteTable vpc_id)
  apiCall env (.createRoute rtb_id "0.0.0.0/0" igw_id)
  let subnet_a ← apiCreate env (ApiCall.createSubnet vpc_id SUBNET_A_CIDR AZ_A)
  let subnet_b ← apiCreate env (ApiCall.createSubnet vpc_id SUBNET_B_CIDR AZ_B)
  mapSubnetCall env subnet_a
  apiCall env (.associateRouteTable rtb_id subnet_a)
  mapSubnetCall env subnet_b
  apiCall env (.associateRouteTable rtb_id subnet_b)
  let sg_ec2 ← apiCreate env (ApiCall.createSecurityGroup vpc_id (PROJECT ++ "-inst-sg"))
  apiCall env (.authorizeIngress sg_ec2 instIngressPerms)
  let sg_alb ← apiCreate env (ApiCall.createSecurityGroup vpc_id (PROJECT ++ "-alb-sg"))
  apiCall env (.authorizeIngress sg_alb albIngressPerms)
  let inst_a ← runInstancesCall env ami_id INSTANCE_TYPE KEY_NAME subnet_a [sg_ec2] user_data
  let inst_b ← runInstancesCall env ami_id INSTANCE_TYPE KEY_NAME subnet_b [sg_ec2] user_data
  apiCall env (.waitInstanceRunning [inst_a, inst_b])
  emit ⟨"EC2 instances:", [.id inst_a, .id inst_b]⟩
  let tg_arn ← apiCreate env (ApiCall.createTargetGroup (PROJECT ++ "-tg-" ++ toString env.now) APP_PORT vpc_id)
  apiCall env (.registerTargets tg_arn [(inst_a, APP_PORT), (inst_b, APP_PORT)])
  let alb ← apiCreate env (ApiCall.createLoadBalancer (PROJECT ++ "-alb-" ++ toString env.now) [subnet_a, subnet_b] [sg_alb])
  apiCall env (.createListener alb 80 tg_arn)
  let dns := env.dnsName
  modify fun s => { s with finalDns := some dns }
  emit ⟨"Stack ready", []⟩
  emit ⟨"VPC:", [.id vpc_id]⟩
  emit ⟨"Subnets:", [.id subnet_a, .id subnet_b]⟩
  emit ⟨"Instances:", [.id inst_a, .id inst_b]⟩
  emit ⟨"ALB DNS:", [.str dns]⟩
  emit ⟨"Open http", [.str dns]⟩

def run (env : Env) : EStateM.Result Exc RunState Unit :=
  (pipeline env).run initState

/-- `main` of `vpc-loadbalancer.py`: there is no exception handler in
`main` or at module level, so a raised exception escapes the process. -/
def main (env : Env) : TopResult :=
  match run env with
  | .ok _ s => .normalExit s
  | .error e s => .uncaught e s

end VpcLb

/-! ## Trace predicates -/

/-- Identifiers a provider call returns. -/
def produced : ApiCall → List Nat
  | .createVpc _ r => [r]
  | .createSubnet _ _ _ r => [r]
  | .createInternetGateway r => [r]
  | .createRouteTable _ r => [r]
  | .createSecurityGroup _ _ r => [r]
  | .describeImages r => [r]
  | .runInstances _ _ _ _ _ _ r => [r]
  | .createTargetGroup _ _ _ r => [r]
  | .createLoadBalancer _ _ _ r => [r]
  | _ => []

/-- Identifiers a trace event consumes (for a printed line: the
identifiers interpolated into it). -/
def consumed : ApiCall → List Nat
  | .waitVpcAvailable v => [v]
  | .modifyVpcAttribute v _ => [v]
  | .createSubnet v _ _ _ => [v]
  | .modifySubnetAttribute sn _ => [sn]
  | .attachInternetGateway i v => [i, v]
  | .createRouteTable v _ => [v]
  | .createRoute r _ g => [r, g]
  | .associateRouteTable r sn => [r, sn]
  | .createSecurityGroup v _ _ => [v]
  | .authorizeIngress g _ => [g]
  | .runInstances img _ _ sn gs _ _ => img :: sn :: gs
  | .waitInstanceRunning l => l
  | .describeInstances l => l
  | .createTargetGroup _ _ v _ => [v]
  | .registerTargets t ts => t :: ts.map (fun p => p.1)
  | .createLoadBalancer _ sns gs _ => sns ++ gs
  | .createListener lb _ tg => [lb, tg]
  | .printLine l => l.vals.filterMap (fun v => match v with | .id n => some n | .str _ => none)
  | _ => []

/-- Identifiers of resources the run allocated (everything `produced`
except the image chosen by the catalog query, which is looked up, not
allocated). -/
def allocated : ApiCall → List Nat
  | .describeImages _ => []
  | c => produced c

/-- Every identifier an event consumes was produced by an earlier event
of the trace (the scan carries the identifiers produced so far). -/
def depsOkAux (avail : List Nat) : List ApiCall → Bool
  | [] => true
  | c :: cs => (consumed c).all (fun x => avail.contains x) && depsOkAux (avail ++ produced c) cs

def depsOk (t : List ApiCall) : Bool := depsOkAux [] t

/-- The dependency-chain ordering of the claims: a default route only
after its gateway is attached (and its route table created), a route-table
association only after the route table and the subnet exist, an instance
launch only after its subnet and all its security groups exist. -/
def orderedOkAux (attached rtbs sgs subnets : List Nat) : List ApiCall → Bool
  | [] => true
  | c :: cs =>
    (match c with
     | .createRoute rtb _ gw => attached.contains gw && rtbs.contains rtb
     | .associateRouteTable rtb sn => rtbs.contains rtb && subnets.contains sn
     | .runInstances _ _ _ sn gl _ _ => subnets.contains sn && gl.all (fun g => sgs.contains g)
     | _ => true) &&
    (match c with
     | .attachInternetGateway g _ => orderedOkAux (attached ++ [g]) rtbs sgs subnets cs
     | .createRouteTable _ r => orderedOkAux attached (rtbs ++ [r]) sgs subnets cs
     | .createSecurityGroup _ _ r => orderedOkAux attached rtbs (sgs ++ [r]) subnets cs
     | .createSubnet _ _ _ r => orderedOkAux attached rtbs sgs (subnets ++ [r]) cs
     | _ => orderedOkAux attached rtbs sgs subnets cs)

def orderedOk (t : List ApiCall) : Bool := orderedOkAux [] [] [] [] t

/-- Is the event a provider call (as opposed to console output)? -/
def isProviderCall : ApiCall → Bool
  | .printLine _ => false
  | _ => true

/-- Number of provider calls in a trace. -/
def apiCount (t : List ApiCall) : Nat := (t.filter isProviderCall).length

/-- The printed lines of a trace, in order. -/
def printedLines (t : List ApiCall) : List OutLine :=
  t.filterMap (fun c => match c with | .printLine l => some l | _ => none)

/-- All values interpolated into printed lines. -/
def reportedVals (t : List ApiCall) : List RVal :=
  ((printedLines t).map OutLine.vals).flatten

/-- All resource identifiers appearing in printed lines. -/
def reportedIds (t : List ApiCall) : List Nat :=
  (reportedVals t).filterMap (fun v => match v with | .id n => some n | .str _ => none)

/-- All identifiers of resources allocated during the trace. -/
def allocatedIds (t : List ApiCall) : List Nat := (t.map allocated).flatten

/-- The interpolated values of the first printed line with the given
label. -/
def lineVals (label : String) : List ApiCall → Option (List RVal)
  | [] => none
  | .printLine l :: cs => if l.label = label then some l.vals else lineVals label cs
  | _ :: cs => lineVals label cs

/-- The `(GroupId, IpPermissions)` pairs of the
`authorize_security_group_ingress` calls of a trace, in order. -/
def ingressCalls (t : List ApiCall) : List (Nat × List IpPermission) :=
  t.filterMap (fun c => match c with | .authorizeIngress g ps => some (g, ps) | _ => none)

/-- The `UserData` arguments handed to `run_instances`, in order. -/
def userDatas (t : List ApiCall) : List String :=
  t.filterMap (fun c => match c with | .runInstances _ _ _ _ _ ud _ => some ud | _ => none)

/-- The identifiers of all launched instances, in launch order. -/
def launchedIds (t : List ApiCall) : List Nat :=
  t.filterMap (fun c => match c with | .runInstances _ _ _ _ _ _ r => some r | _ => none)

/-- The argument list of the first `instance_running` waiter call. -/
def firstWaitArgs : List ApiCall → Option (List Nat)
  | [] => none
  | .waitInstanceRunning l :: _ => some l
  | _ :: cs => firstWaitArgs cs

/-- No event satisfying `bad` occurs before the first `instance_running`
waiter call of the trace. -/
def noBadBeforeWait (bad : ApiCall → Bool) : List ApiCall → Bool
  | [] => true
  | .waitInstanceRunning _ :: _ => true
  | c :: cs => !bad c && noBadBeforeWait bad cs

/-- Number of trace events satisfying `p`. -/
def countCalls (p : ApiCall → Bool) (t : List ApiCall) : Nat := (t.filter p).length

/-- An "unexpected" provider error in the sense of the spec: anything
except the duplicate-key-pair `ClientError`. -/
def unexpectedErr : Exc → Bool
  | .clientError m => !strContains m dupToken
  | .otherError _ => true

/-- The key-pair call outcomes under which a run proceeds past
provisioning step one: success, or the provider's duplicate-name error. -/
def benignKeyResp (r : CallResp) : Prop :=
  (∃ km, r = CallResp.ok km) ∨ r = CallResp.exc (.clientError awsDupMsg)

/-- A concrete benign environment: no injected failure, one catalog
image, a fixed public address and DNS name. -/
def cleanEnv : Env :=
  { keyResp := .ok "PRIVATE-KEY-MATERIAL"
    images := [⟨"ami-0abcdef1234567890", "2024-05-01T00:00:00.000Z"⟩]
    publicIp := "54.100.20.30"
    dnsName := "lb-demo-alb.us-east-1.elb.amazonaws.example"
    now := 1700000000
    failAt := none
    failErr := .otherError "" }

/-! ## Evaluation lemmas for the run monad -/

theorem M_run_bind {α β : Type} (x : M α) (f : α → M β) (s : RunState) :
    (x >>= f).run s = match x.run s with
      | .ok a s2 => (f a).run s2
      | .error e s2 => EStateM.Result.error e s2 := by
  show EStateM.bind x f s = _
  unfold EStateM.bind
  rcases hx : x.run s with _ | _ <;> simp only [EStateM.run] at hx <;> (rw [hx]; try rfl)

theorem M_run_get (s : RunState) : (get : M RunState).run s = .ok s s := rfl

theorem M_run_set (s s2 : RunState) : (set s2 : M Unit).run s = .ok () s2 := rfl

theorem M_run_modify (f : RunState → RunState) (s : RunState) :
    (modify f : M Unit).run s = .ok () (f s) := rfl

theorem M_run_pure {α : Type} (a : α) (s : RunState) :
    (pure a : M α).run s = .ok a s := rfl

theorem M_run_throw {α : Type} (e : Exc) (s : RunState) :
    (throw e : M α).run s = .error e s := rfl

theorem apiCall_run (env : Env) (c : ApiCall) (s : RunState) :
    (apiCall env c).run s =
      if env.failAt = some s.calls
      then .error env.failErr { s with calls := s.calls + 1, trace := s.trace ++ [c] }
      else .ok () { s with calls := s.calls + 1, trace := s.trace ++ [c] } := by
  simp only [apiCall, M_run_bind, M_run_get, M_run_set]
  split <;> simp [M_run_throw, M_run_pure]

theorem apiCreate_run (env : Env) (c : Nat → ApiCall) (s : RunState) :
    (apiCreate env c).run s =
      if env.failAt = some s.calls
      then .error env.failErr { s with
        calls := s.calls + 1
        nextId := s.nextId + 1
        trace := s.trace ++ [c s.nextId] }
      else .ok s.nextId { s with
        calls := s.calls + 1
        nextId := s.nextId + 1
        trace := s.trace ++ [c s.nextId] } := by
  simp only [apiCreate, M_run_bind, M_run_get, M_run_set]
  split <;> simp [M_run_throw, M_run_pure, M_run_bind]

theorem emit_run (l : OutLine) (s : RunState) :
    (emit l).run s = .ok () { s with trace := s.trace ++ [.printLine l] } := rfl

/-- The duplicate-name message does contain the error-code substring. -/
theorem awsDupMsg_contains : strContains awsDupMsg dupToken = true := by decide

/-! ## The traces of completed runs

For each variant we name the trace and final state of a run that meets no
injected failure, parameterised by the key-pair branch taken (`wrote`) and
the environment payloads that flow into the run. -/

/-- The event trace of a completed `vpc.py` run. -/
def vpcTrace (wrote : Bool) (ip : String) : List ApiCall :=
  [.printLine ⟨"Creating new key pair:", [.str KEY_NAME]⟩,
   .createKeyPair KEY_NAME,
   .printLine (if wrote then ⟨"Key saved to", [.str KEY_FILE]⟩
               else ⟨"Key pair already exists. Skipping creation.", [.str KEY_NAME]⟩),
   .createVpc Vpc.VPC_CIDR 0,
   .waitVpcAvailable 0,
   .modifyVpcAttribute 0 "EnableDnsSupport",
   .modifyVpcAttribute 0 "EnableDnsHostnames",
   .createSubnet 0 Vpc.SUBNET_CIDR Vpc.AVAILABILITY_ZONE 1,
   .modifySubnetAttribute 1 "MapPublicIpOnLaunch",
   .createInternetGateway 2,
   .attachInternetGateway 2 0,
   .createRouteTable 0 3,
   .createRoute 3 "0.0.0.0/0" 2,
   .associateRouteTable 3 1,
   .createSecurityGroup 0 (Vpc.PROJECT_NAME ++ "-sg") 4,
   .authorizeIngress 4 Vpc.ingressPerms,
   .describeImages 5,
   .runInstances 5 Vpc.INSTANCE_TYPE KEY_NAME 1 [4] Vpc.user_data 6,
   .waitInstanceRunning [6],
   .describeInstances [6],
   .printLine ⟨"All resources created:", []⟩,
   .printLine ⟨"VPC:", [.id 0]⟩,
   .printLine ⟨"Subnet:", [.id 1]⟩,
   .printLine ⟨"Internet GW:", [.id 2]⟩,
   .printLine ⟨"Route Table:", [.id 3]⟩,
   .printLine ⟨"Security Group:", [.id 4]⟩,
   .printLine ⟨"EC2 Instance:", [.id 6]⟩,
   .printLine ⟨"Public IP:", [.str ip]⟩,
   .printLine ⟨"SSH command:", []⟩,
   .printLine ⟨"ssh -i", [.str KEY_FILE, .str ip]⟩]

/-- The final state of a completed `vpc.py` run. -/
def vpcState (wrote : Bool) (kf : Option KeyFile) (ip : String) : RunState :=
  { calls := 18, nextId := 7, trace := vpcTrace wrote ip, keyFile := kf,
    mapped := [1], instSubnet := [(6, 1)], finalIp := some ip, finalDns := none }

/-- The event trace of a completed `vpc-loadbalancer.py` run. -/
def lbTrace (wrote : Bool) (dns : String) (nw : Nat) : List ApiCall :=
  [.createKeyPair KEY_NAME,
   .printLine (if wrote then ⟨"New key saved to", [.str KEY_FILE]⟩
               else ⟨"Key pair already exists - using it.", [.str KEY_NAME]⟩),
   .describeImages 0,
   .createVpc VpcLb.VPC_CIDR 1,
   .modifyVpcAttribute 1 "EnableDnsSupport",
   .modifyVpcAttribute 1 "EnableDnsHostnames",
   .createInternetGateway 2,
   .attachInternetGateway 2 1,
   .createRouteTable 1 3,
   .createRoute 3 "0.0.0.0/0" 2,
   .createSubnet 1 VpcLb.SUBNET_A_CIDR VpcLb.AZ_A 4,
   .createSubnet 1 VpcLb.SUBNET_B_CIDR VpcLb.AZ_B 5,
   .modifySubnetAttribute 4 "MapPublicIpOnLaunch",
   .associateRouteTable 3 4,
   .modifySubnetAttribute 5 "MapPublicIpOnLaunch",
   .associateRouteTable 3 5,
   .createSecurityGroup 1 (VpcLb.PROJECT ++ "-inst-sg") 6,
   .authorizeIngress 6 VpcLb.instIngressPerms,
   .createSecurityGroup 1 (VpcLb.PROJECT ++ "-alb-sg") 7,
   .authorizeIngress 7 VpcLb.albIngressPerms,
   .runInstances 0 VpcLb.INSTANCE_TYPE KEY_NAME 4 [6] VpcLb.user_data 8,
   .runInstances 0 VpcLb.INSTANCE_TYPE KEY_NAME 5 [6] VpcLb.user_data 9,
   .waitInstanceRunning [8, 9],
   .printLine ⟨"EC2 instances:", [.id 8, .id 9]⟩,
   .createTargetGroup (VpcLb.PROJECT ++ "-tg-" ++ toString nw) VpcLb.APP_PORT 1 10,
   .registerTargets 10 [(8, VpcLb.APP_PORT), (9, VpcLb.APP_PORT)],
   .createLoadBalancer (VpcLb.PROJECT ++ "-alb-" ++ toString nw) [4, 5] [7] 11,
   .createListener 11 80 10,
   .printLine ⟨"Stack ready", []⟩,
   .printLine ⟨"VPC:", [.id 1]⟩,
   .printLine ⟨"Subnets:", [.id 4, .id 5]⟩,
   .printLine ⟨"Instances:", [.id 8, .id 9]⟩,
   .printLine ⟨"ALB DNS:", [.str dns]⟩,
   .printLine ⟨"Open http", [.str dns]⟩]

/-- The final state of a completed `vpc-loadbalancer.py` run. -/
def lbState (wrote : Bool) (kf : Option KeyFile) (dns : String) (nw : Nat) : RunState :=
  { calls := 26, nextId := 12, trace := lbTrace wrote dns nw, keyFile := kf,
    mapped := [4, 5], instSubnet := [(8, 4), (9, 5)], finalIp := none,
    finalDns := some dns }

/-- Everything a pipeline-evaluation `simp` call needs. -/
theorem vpc_run_ok (km ip dns : String) (nw : Nat) (e : Exc) (img : Image) (rest : List Image) :
    Vpc.run ⟨.ok km, img :: rest, ip, dns, nw, none, e⟩ =
      .ok () (vpcState true (some ⟨km, 256⟩) ip) := by
  simp [Vpc.run, Vpc.pipeline, Vpc.create_key_pair_step, Vpc.ami_step,
    mapSubnetCall, runInstancesCall, describeInstancesCall,
    M_run_bind, M_run_get, M_run_set, M_run_pure, M_run_throw, emit_run,
    apiCall_run, apiCreate_run, M_run_modify,
    initState, create_key_pair, Vpc.latest_ubuntu_ami, List.lookup, pyOpt,
    vpcState, vpcTrace]

theorem vpc_run_dup (ip dns : String) (nw : Nat) (e : Exc) (img : Image) (rest : List Image) :
    Vpc.run ⟨.exc (.clientError awsDupMsg), img :: rest, ip, dns, nw, none, e⟩ =
      .ok () (vpcState false none ip) := by
  simp [Vpc.run, Vpc.pipeline, Vpc.create_key_pair_step, Vpc.ami_step,
    mapSubnetCall, runInstancesCall, describeInstancesCall,
    M_run_bind, M_run_get, M_run_set, M_run_pure, M_run_throw, emit_run,
    apiCall_run, apiCreate_run, M_run_modify,
    initState, create_key_pair, awsDupMsg_contains, Vpc.latest_ubuntu_ami,
    List.lookup, pyOpt, vpcState, vpcTrace]

theorem lb_run_ok (km ip dns : String) (nw : Nat) (e : Exc) (img : Image) (rest : List Image) :
    VpcLb.run ⟨.ok km, img :: rest, ip, dns, nw, none, e⟩ =
      .ok () (lbState true (some ⟨km, 256⟩) dns nw) := by
  simp [VpcLb.run, VpcLb.pipeline, VpcLb.ensure_key_pair_step, VpcLb.ami_step,
    mapSubnetCall, runInstancesCall, describeInstancesCall,
    M_run_bind, M_run_get, M_run_set, M_run_pure, M_run_throw, emit_run,
    apiCall_run, apiCreate_run, M_run_modify,
    initState, ensure_key_pair, create_key_pair, VpcLb.latest_ubuntu_ami,
    List.lookup, pyOpt, lbState, lbTrace]

theorem lb_run_dup (ip dns : String) (nw : Nat) (e : Exc) (img : Image) (rest : List Image) :
    VpcLb.run ⟨.exc (.clientError awsDupMsg), img :: rest, ip, dns, nw, none, e⟩ =
      .ok () (lbState false none dns nw) := by
  simp [VpcLb.run, VpcLb.pipeline, VpcLb.ensure_key_pair_step, VpcLb.ami_step,
    mapSubnetCall, runInstancesCall, describeInstancesCall,
    M_run_bind, M_run_get, M_run_set, M_run_pure, M_run_throw, emit_run,
    apiCall_run, apiCreate_run, M_run_modify,
    initState, ensure_key_pair, create_key_pair, awsDupMsg_contains,
    VpcLb.latest_ubuntu_ami, List.lookup, pyOpt, lbState, lbTrace]

theorem vpc_main_ok (km ip dns : String) (nw : Nat) (e : Exc) (img : Image) (rest : List Image) :
    Vpc.main ⟨.ok km, img :: rest, ip, dns, nw, none, e⟩ =
      .normalExit (vpcState true (some ⟨km, 256⟩) ip) := by
  simp [Vpc.main, vpc_run_ok]

theorem vpc_main_dup (ip dns : String) (nw : Nat) (e : Exc) (img : Image) (rest : List Image) :
    Vpc.main ⟨.exc (.clientError awsDupMsg), img :: rest, ip, dns, nw, none, e⟩ =
      .normalExit (vpcState false none ip) := by
  simp [Vpc.main, vpc_run_dup]

theorem lb_main_ok (km ip dns : String) (nw : Nat) (e : Exc) (img : Image) (rest : List Image) :
    VpcLb.main ⟨.ok km, img :: rest, ip, dns, nw, none, e⟩ =
      .normalExit (lbState true (some ⟨km, 256⟩) dns nw) := by
  simp [VpcLb.main, lb_run_ok]

theorem lb_main_dup (ip dns : String) (nw : Nat) (e : Exc) (img : Image) (rest : List Image) :
    VpcLb.main ⟨.exc (.clientError awsDupMsg), img :: rest, ip, dns, nw, none, e⟩ =
      .normalExit (lbState false none dns nw) := by
  simp [VpcLb.main, lb_run_dup]

/-! ## Claim theorems -/

/-- Claim C1: for every image-catalog response in either variant, with at
least one matching image both resolvers return the `ImageId` of an image
whose `CreationDate` string is lexicographically maximal among all
matches; with zero images both raise an error (no fallback image). -/
theorem C1_latest_ami_selects_max (img : Image) (rest : List Image) :
    (∃ best, best ∈ img :: rest ∧
        Vpc.latest_ubuntu_ami (img :: rest) = .ok best.imageId ∧
        VpcLb.latest_ubuntu_ami (img :: rest) = .ok best.imageId ∧
        ∀ j ∈ img :: rest, j.creationDate ≤ best.creationDate) ∧
    Vpc.latest_ubuntu_ami [] =
      .error (.otherError "No Ubuntu AMIs found. Check region and filters.") ∧
    VpcLb.latest_ubuntu_ami [] = .error (.otherError "No Ubuntu AMIs found") := by
  exact ⟨⟨pyMaxBy (fun i => i.creationDate) img rest, pyMaxBy_mem _ _ _, rfl, rfl,
    pyMaxBy_le _ _ _⟩, rfl, rfl⟩

/-- Instantiation of `C1_latest_ami_selects_max` at a concrete two-image
catalog response. -/
theorem C1_latest_ami_selects_max_witness :
    (∃ best, best ∈ [Image.mk "ami-old" "2023-01-01", Image.mk "ami-new" "2024-01-01"] ∧
        Vpc.latest_ubuntu_ami [Image.mk "ami-old" "2023-01-01", Image.mk "ami-new" "2024-01-01"]
          = .ok best.imageId ∧
        VpcLb.latest_ubuntu_ami [Image.mk "ami-old" "2023-01-01", Image.mk "ami-new" "2024-01-01"]
          = .ok best.imageId ∧
        ∀ j ∈ [Image.mk "ami-old" "2023-01-01", Image.mk "ami-new" "2024-01-01"],
          j.creationDate ≤ best.creationDate) ∧
    Vpc.latest_ubuntu_ami [] =
      .error (.otherError "No Ubuntu AMIs found. Check region and filters.") ∧
    VpcLb.latest_ubuntu_ami [] = .error (.otherError "No Ubuntu AMIs found") :=
  C1_latest_ami_selects_max (Image.mk "ami-old" "2023-01-01") [Image.mk "ami-new" "2024-01-01"]

/-- Claim C2: key-pair provisioning in either variant — a successful
remote creation writes the key material to the local file; a
duplicate-name error from the provider makes the function return normally
with the local file untouched, so the second of two invocations with the
same name neither raises nor overwrites the file written by the first;
any other provider failure propagates. -/
theorem C2_key_pair_provisioning
    (existing : List String) (material msg : String) (file file2 : Option KeyFile)
    (hname : KEY_NAME ∉ existing)
    (hmsg : strContains msg dupToken = false) :
    create_key_pair (providerKeyResp existing KEY_NAME material).1 file
      = .ok (some ⟨material, 256⟩, true) ∧
    create_key_pair
        (providerKeyResp (providerKeyResp existing KEY_NAME material).2 KEY_NAME material).1 file2
      = .ok (file2, false) ∧
    ensure_key_pair
        (providerKeyResp (providerKeyResp existing KEY_NAME material).2 KEY_NAME material).1 file2
      = .ok (file2, false) ∧
    create_key_pair (.exc (.clientError msg)) file = .error (.clientError msg) ∧
    create_key_pair (.exc (.otherError msg)) file = .error (.otherError msg) := by
  refine ⟨?_, ?_, ?_, ?_, rfl⟩
  · simp [providerKeyResp, hname, create_key_pair]
  · simp [providerKeyResp, hname, create_key_pair, awsDupMsg_contains]
  · simp [providerKeyResp, hname, ensure_key_pair, create_key_pair, awsDupMsg_contains]
  · simp [create_key_pair, hmsg]

/-- Instantiation of `C2_key_pair_provisioning`: fresh provider state, a
pre-existing local file for the second call, and a non-duplicate error. -/
theorem C2_key_pair_provisioning_witness :
    create_key_pair (providerKeyResp [] KEY_NAME "KM").1 none
      = .ok (some ⟨"KM", 256⟩, true) ∧
    create_key_pair (providerKeyResp (providerKeyResp [] KEY_NAME "KM").2 KEY_NAME "KM").1
        (some ⟨"KM", 256⟩)
      = .ok (some ⟨"KM", 256⟩, false) ∧
    ensure_key_pair (providerKeyResp (providerKeyResp [] KEY_NAME "KM").2 KEY_NAME "KM").1
        (some ⟨"KM", 256⟩)
      = .ok (some ⟨"KM", 256⟩, false) ∧
    create_key_pair (.exc (.clientError "AccessDenied")) none
      = .error (.clientError "AccessDenied") ∧
    create_key_pair (.exc (.otherError "AccessDenied")) none
      = .error (.otherError "AccessDenied") :=
  C2_key_pair_provisioning [] "KM" "AccessDenied" none (some ⟨"KM", 256⟩)
    (by decide) (by decide)

/-- Claim C10: the duplicate-detection branch classifies purely by
substring match on the exception's string representation — both variants
treat any `ClientError` containing `InvalidKeyPair.Duplicate` as success
without touching the file, re-raise every `ClientError` without that
substring regardless of its actual error code, and never intercept
non-`ClientError` exceptions. -/
theorem C10_duplicate_substring_classification (msg : String) (file : Option KeyFile) :
    (strContains msg dupToken = true →
        create_key_pair (.exc (.clientError msg)) file = .ok (file, false) ∧
        ensure_key_pair (.exc (.clientError msg)) file = .ok (file, false)) ∧
    (strContains msg dupToken = false →
        create_key_pair (.exc (.clientError msg)) file = .error (.clientError msg) ∧
        ensure_key_pair (.exc (.clientError msg)) file = .error (.clientError msg)) ∧
    create_key_pair (.exc (.otherError msg)) file = .error (.otherError msg) ∧
    ensure_key_pair (.exc (.otherError msg)) file = .error (.otherError msg) := by
  refine ⟨fun h => ?_, fun h => ?_, rfl, rfl⟩ <;>
    constructor <;> simp [create_key_pair, ensure_key_pair, h]

/-- Instantiation of `C10_duplicate_substring_classification` at a
duplicate-name message and at a foreign error message. -/
theorem C10_duplicate_substring_classification_witness :
    create_key_pair (.exc (.clientError awsDupMsg)) none = .ok (none, false) ∧
    create_key_pair (.exc (.clientError "UnauthorizedOperation")) none
      = .error (.clientError "UnauthorizedOperation") ∧
    create_key_pair (.exc (.otherError "timeout")) none = .error (.otherError "timeout") :=
  ⟨((C10_duplicate_substring_classification awsDupMsg none).1 (by decide)).1,
   ((C10_duplicate_substring_classification "UnauthorizedOperation" none).2.1 (by decide)).1,
   (C10_duplicate_substring_classification "timeout" none).2.2.1⟩

set_option maxHeartbeats 1000000 in
/-- Claim C3: in every completed run of either variant the provider calls
follow the dependency chain — the gateway is attached before the default
route referencing it, the route table exists before any subnet
association, the security group and subnet passed to `run_instances` were
returned by earlier calls, and every identifier any call consumes was
produced by an earlier call of the same run (`depsOk` starts from an empty
identifier pool, so nothing is guessed or cached; the only cross-run
constant is the key-pair name, a fixed string rather than an identifier). -/
theorem C3_pipeline_strictly_ordered
    (r : CallResp) (ip dns : String) (nw : Nat) (e : Exc) (img : Image) (rest : List Image)
    (hr : benignKeyResp r) :
    depsOk (Vpc.main ⟨r, img :: rest, ip, dns, nw, none, e⟩).state.trace = true ∧
    orderedOk (Vpc.main ⟨r, img :: rest, ip, dns, nw, none, e⟩).state.trace = true ∧
    depsOk (VpcLb.main ⟨r, img :: rest, ip, dns, nw, none, e⟩).state.trace = true ∧
    orderedOk (VpcLb.main ⟨r, img :: rest, ip, dns, nw, none, e⟩).state.trace = true := by
  obtain ⟨km, rfl⟩ | rfl := hr <;>
    simp only [vpc_main_ok, vpc_main_dup, lb_main_ok, lb_main_dup, TopResult.state,
      vpcState, lbState] <;>
    refine ⟨?_, ?_, ?_, ?_⟩ <;>
    simp [vpcTrace, lbTrace, depsOk, depsOkAux, orderedOk, orderedOkAux,
      consumed, produced, List.contains]

/-- Instantiation of `C3_pipeline_strictly_ordered` at the concrete
benign environment. -/
theorem C3_pipeline_strictly_ordered_witness :
    depsOk (Vpc.main cleanEnv).state.trace = true ∧
    orderedOk (Vpc.main cleanEnv).state.trace = true ∧
    depsOk (VpcLb.main cleanEnv).state.trace = true ∧
    orderedOk (VpcLb.main cleanEnv).state.trace = true :=
  C3_pipeline_strictly_ordered cleanEnv.keyResp cleanEnv.publicIp cleanEnv.dnsName
    cleanEnv.now cleanEnv.failErr ⟨"ami-0abcdef1234567890", "2024-05-01T00:00:00.000Z"⟩ []
    (Or.inl ⟨"PRIVATE-KEY-MATERIAL", rfl⟩)

set_option maxHeartbeats 1000000 in
/-- Claim C4: the ingress rules either variant creates are exactly the
declared (protocol, port, source-CIDR) triples — tcp 22 and tcp 5000 from
0.0.0.0/0 on the instance group, tcp 80 from 0.0.0.0/0 on the
load-balancer group — and every rule has `FromPort = ToPort`. -/
theorem C4_ingress_rules_exact
    (r : CallResp) (ip dns : String) (nw : Nat) (e : Exc) (img : Image) (rest : List Image)
    (hr : benignKeyResp r) :
    ingressCalls (Vpc.main ⟨r, img :: rest, ip, dns, nw, none, e⟩).state.trace
      = [(4, [⟨"tcp", 22, 22, "0.0.0.0/0", "SSH"⟩,
              ⟨"tcp", 5000, 5000, "0.0.0.0/0", "App Port"⟩])] ∧
    ingressCalls (VpcLb.main ⟨r, img :: rest, ip, dns, nw, none, e⟩).state.trace
      = [(6, [⟨"tcp", 22, 22, "0.0.0.0/0", "SSH"⟩,
              ⟨"tcp", 5000, 5000, "0.0.0.0/0", "App"⟩]),
         (7, [⟨"tcp", 80, 80, "0.0.0.0/0", "HTTP"⟩])] ∧
    (Vpc.ingressPerms ++ VpcLb.instIngressPerms ++ VpcLb.albIngressPerms).all
      (fun p => p.fromPort == p.toPort) = true := by
  obtain ⟨km, rfl⟩ | rfl := hr <;>
    simp only [vpc_main_ok, vpc_main_dup, lb_main_ok, lb_main_dup, TopResult.state,
      vpcState, lbState] <;>
    refine ⟨?_, ?_, by decide⟩ <;>
    simp [vpcTrace, lbTrace, ingressCalls,
      Vpc.ingressPerms, VpcLb.instIngressPerms, VpcLb.albIngressPerms, VpcLb.APP_PORT]

/-- Instantiation of `C4_ingress_rules_exact` at the concrete benign
environment. -/
theorem C4_ingress_rules_exact_witness :
    ingressCalls (Vpc.main cleanEnv).state.trace
      = [(4, [⟨"tcp", 22, 22, "0.0.0.0/0", "SSH"⟩,
              ⟨"tcp", 5000, 5000, "0.0.0.0/0", "App Port"⟩])] ∧
    ingressCalls (VpcLb.main cleanEnv).state.trace
      = [(6, [⟨"tcp", 22, 22, "0.0.0.0/0", "SSH"⟩,
              ⟨"tcp", 5000, 5000, "0.0.0.0/0", "App"⟩]),
         (7, [⟨"tcp", 80, 80, "0.0.0.0/0", "HTTP"⟩])] ∧
    (Vpc.ingressPerms ++ VpcLb.instIngressPerms ++ VpcLb.albIngressPerms).all
      (fun p => p.fromPort == p.toPort) = true :=
  C4_ingress_rules_exact cleanEnv.keyResp cleanEnv.publicIp cleanEnv.dnsName
    cleanEnv.now cleanEnv.failErr ⟨"ami-0abcdef1234567890", "2024-05-01T00:00:00.000Z"⟩ []
    (Or.inl ⟨"PRIVATE-KEY-MATERIAL", rfl⟩)

/-- Labels of the result-report prints of `vpc.py`. -/
def vpcResultLabels : List String :=
  ["All resources created:", "VPC:", "Subnet:", "Internet GW:", "Route Table:",
   "Security Group:", "EC2 Instance:", "Public IP:", "SSH command:", "ssh -i"]

/-- Steps of `vpc.py` that must not run before the instance waiter: the
public-address re-query and the result report. -/
def vpcLateStep : ApiCall → Bool
  | .describeInstances _ => true
  | .printLine l => vpcResultLabels.contains l.label
  | _ => false

/-- Labels of the report prints of `vpc-loadbalancer.py`. -/
def lbReportLabels : List String :=
  ["EC2 instances:", "Stack ready", "VPC:", "Subnets:", "Instances:", "ALB DNS:", "Open http"]

/-- Steps of `vpc-loadbalancer.py` that must not run before the instance
waiter: the whole load-balancing chain and the reports. -/
def lbLateStep : ApiCall → Bool
  | .createTargetGroup _ _ _ _ => true
  | .registerTargets _ _ => true
  | .createLoadBalancer _ _ _ _ => true
  | .createListener _ _ _ => true
  | .printLine l => lbReportLabels.contains l.label
  | _ => false

set_option maxHeartbeats 1000000 in
/-- Claim C5: in every completed run, after launching, each variant
invokes the `instance_running` waiter on exactly the launched instance
identifiers, and no later step — the public-address re-query and result
report in `vpc.py`; target group, target registration, load balancer,
listener and report in `vpc-loadbalancer.py` — occurs before that waiter. -/
theorem C5_waiter_before_later_steps
    (r : CallResp) (ip dns : String) (nw : Nat) (e : Exc) (img : Image) (rest : List Image)
    (hr : benignKeyResp r) :
    launchedIds (Vpc.main ⟨r, img :: rest, ip, dns, nw, none, e⟩).state.trace = [6] ∧
    firstWaitArgs (Vpc.main ⟨r, img :: rest, ip, dns, nw, none, e⟩).state.trace = some [6] ∧
    noBadBeforeWait vpcLateStep (Vpc.main ⟨r, img :: rest, ip, dns, nw, none, e⟩).state.trace = true ∧
    launchedIds (VpcLb.main ⟨r, img :: rest, ip, dns, nw, none, e⟩).state.trace = [8, 9] ∧
    firstWaitArgs (VpcLb.main ⟨r, img :: rest, ip, dns, nw, none, e⟩).state.trace = some [8, 9] ∧
    noBadBeforeWait lbLateStep (VpcLb.main ⟨r, img :: rest, ip, dns, nw, none, e⟩).state.trace = true := by
  obtain ⟨km, rfl⟩ | rfl := hr <;>
    simp only [vpc_main_ok, vpc_main_dup, lb_main_ok, lb_main_dup, TopResult.state,
      vpcState, lbState] <;>
    refine ⟨?_, ?_, ?_, ?_, ?_, ?_⟩ <;>
    simp [vpcTrace, lbTrace, launchedIds, firstWaitArgs, noBadBeforeWait,
      vpcLateStep, lbLateStep, vpcResultLabels, lbReportLabels, List.contains]

/-- Instantiation of `C5_waiter_before_later_steps` at the concrete
benign environment. -/
theorem C5_waiter_before_later_steps_witness :
    launchedIds (Vpc.main cleanEnv).state.trace = [6] ∧
    firstWaitArgs (Vpc.main cleanEnv).state.trace = some [6] ∧
    noBadBeforeWait vpcLateStep (Vpc.main cleanEnv).state.trace = true ∧
    launchedIds (VpcLb.main cleanEnv).state.trace = [8, 9] ∧
    firstWaitArgs (VpcLb.main cleanEnv).state.trace = some [8, 9] ∧
    noBadBeforeWait lbLateStep (VpcLb.main cleanEnv).state.trace = true :=
  C5_waiter_before_later_steps cleanEnv.keyResp cleanEnv.publicIp cleanEnv.dnsName
    cleanEnv.now cleanEnv.failErr ⟨"ami-0abcdef1234567890", "2024-05-01T00:00:00.000Z"⟩ []
    (Or.inl ⟨"PRIVATE-KEY-MATERIAL", rfl⟩)

set_option maxRecDepth 40000 in
/-- Claim C6 counterexample: the claim says the bootstrap script of each
variant starts a sample containerized workload bound to the application
port, with the port number substituted into a template — but the
single-instance variant's script contains no `docker run` command and no
occurrence of the application port `5000` at all (it only installs docker
and docker-compose), and it is exactly the script handed to
`run_instances` in a run. -/
theorem C6_counterexample_vpc_script_starts_no_workload :
    strContains Vpc.user_data "docker run" = false ∧
    strContains Vpc.user_data "5000" = false ∧
    userDatas (Vpc.main cleanEnv).state.trace = [Vpc.user_data] := by
  exact ⟨by decide, by decide, by decide⟩

set_option maxRecDepth 40000 in
set_option maxHeartbeats 1000000 in
/-- Claim C6 (amended): both bootstrap scripts install the container
runtime, enable it at boot and grant the default `ubuntu` user access;
only the load-balanced variant's script additionally starts the sample
containerized workload bound to the application port, assembled from a
fixed template with `APP_PORT` (5000) substituted in; the single-instance
variant's script starts no workload and contains no port substitution.
Each script is the `UserData` of every `run_instances` call of its
variant. -/
theorem C6_amended_bootstrap_scripts
    (r : CallResp) (ip dns : String) (nw : Nat) (e : Exc) (img : Image) (rest : List Image)
    (hr : benignKeyResp r) :
    strContains Vpc.user_data "apt-get install -y docker.io" = true ∧
    strContains Vpc.user_data "systemctl enable --now docker" = true ∧
    strContains Vpc.user_data "usermod -aG docker ubuntu" = true ∧
    strContains VpcLb.user_data "apt-get install -y docker.io" = true ∧
    strContains VpcLb.user_data "systemctl enable --now docker" = true ∧
    strContains VpcLb.user_data "usermod -aG docker ubuntu" = true ∧
    strContains VpcLb.user_data
      ("docker run -d -p " ++ toString VpcLb.APP_PORT ++ ":" ++ toString VpcLb.APP_PORT) = true ∧
    strContains Vpc.user_data "docker run" = false ∧
    strContains Vpc.user_data (toString VpcLb.APP_PORT) = false ∧
    userDatas (Vpc.main ⟨r, img :: rest, ip, dns, nw, none, e⟩).state.trace
      = [Vpc.user_data] ∧
    userDatas (VpcLb.main ⟨r, img :: rest, ip, dns, nw, none, e⟩).state.trace
      = [VpcLb.user_data, VpcLb.user_data] := by
  refine ⟨by decide, by decide, by decide, by decide, by decide, by decide,
    by decide, by decide, by decide, ?_, ?_⟩ <;>
    obtain ⟨km, rfl⟩ | rfl := hr <;>
    simp only [vpc_main_ok, vpc_main_dup, lb_main_ok, lb_main_dup, TopResult.state,
      vpcState, lbState] <;>
    simp [vpcTrace, lbTrace, userDatas]

/-- Instantiation of `C6_amended_bootstrap_scripts` at the concrete
benign environment. -/
theorem C6_amended_bootstrap_scripts_witness :
    strContains VpcLb.user_data
      ("docker run -d -p " ++ toString VpcLb.APP_PORT ++ ":" ++ toString VpcLb.APP_PORT) = true ∧
    strContains Vpc.user_data "docker run" = false ∧
    userDatas (Vpc.main cleanEnv).state.trace = [Vpc.user_data] ∧
    userDatas (VpcLb.main cleanEnv).state.trace = [VpcLb.user_data, VpcLb.user_data] := by
  have h := C6_amended_bootstrap_scripts cleanEnv.keyResp cleanEnv.publicIp cleanEnv.dnsName
    cleanEnv.now cleanEnv.failErr ⟨"ami-0abcdef1234567890", "2024-05-01T00:00:00.000Z"⟩ []
    (Or.inl ⟨"PRIVATE-KEY-MATERIAL", rfl⟩)
  exact ⟨h.2.2.2.2.2.2.1, h.2.2.2.2.2.2.2.1, h.2.2.2.2.2.2.2.2.2.1, h.2.2.2.2.2.2.2.2.2.2⟩

/-- Claim C7 counterexample: in a completed load-balanced run the
internet gateway (identifier 2) is allocated, yet no printed line of the
run mentions it — the load-balanced reporter prints only the VPC, the two
subnets, the instances and the load-balancer DNS name. -/
theorem C7_counterexample_lb_reporting_incomplete :
    (ApiCall.createInternetGateway 2) ∈ (VpcLb.main cleanEnv).state.trace ∧
    2 ∈ allocatedIds (VpcLb.main cleanEnv).state.trace ∧
    reportedIds (VpcLb.main cleanEnv).state.trace = [8, 9, 1, 4, 5, 8, 9] ∧
    2 ∉ reportedIds (VpcLb.main cleanEnv).state.trace := by
  exact ⟨by decide, by decide, by decide, by decide⟩

set_option maxHeartbeats 1000000 in
/-- Claim C7 (amended): the single-instance reporter prints every
allocated identifier (network, subnet, gateway, route table, security
group, instance) together with the public address re-queried after the
waiter (`finalIp` comes from the `describe_instances` call, which appears
in the trace, and is printed); the load-balanced reporter prints only the
network, the two subnets, the two instances and the load-balancer DNS
name — the gateway, route table, both security groups, the target group
and the load balancer are allocated but never printed. -/
theorem C7_amended_reporting
    (r : CallResp) (ip dns : String) (nw : Nat) (e : Exc) (img : Image) (rest : List Image)
    (hr : benignKeyResp r) :
    (allocatedIds (Vpc.main ⟨r, img :: rest, ip, dns, nw, none, e⟩).state.trace).all
      (fun i => (reportedIds (Vpc.main ⟨r, img :: rest, ip, dns, nw, none, e⟩).state.trace).contains i)
      = true ∧
    (Vpc.main ⟨r, img :: rest, ip, dns, nw, none, e⟩).state.finalIp = some ip ∧
    (ApiCall.describeInstances [6]) ∈ (Vpc.main ⟨r, img :: rest, ip, dns, nw, none, e⟩).state.trace ∧
    (ApiCall.printLine ⟨"Public IP:", [.str ip]⟩)
      ∈ (Vpc.main ⟨r, img :: rest, ip, dns, nw, none, e⟩).state.trace ∧
    reportedIds (VpcLb.main ⟨r, img :: rest, ip, dns, nw, none, e⟩).state.trace
      = [8, 9, 1, 4, 5, 8, 9] ∧
    ([2, 3, 6, 7, 10, 11].all
      (fun i => !(reportedIds (VpcLb.main ⟨r, img :: rest, ip, dns, nw, none, e⟩).state.trace).contains i))
      = true ∧
    (VpcLb.main ⟨r, img :: rest, ip, dns, nw, none, e⟩).state.finalDns = some dns ∧
    (ApiCall.printLine ⟨"ALB DNS:", [.str dns]⟩)
      ∈ (VpcLb.main ⟨r, img :: rest, ip, dns, nw, none, e⟩).state.trace := by
  obtain ⟨km, rfl⟩ | rfl := hr <;>
    simp only [vpc_main_ok, vpc_main_dup, lb_main_ok, lb_main_dup, TopResult.state,
      vpcState, lbState] <;>
    refine ⟨?_, trivial, ?_, ?_, ?_, ?_, trivial, ?_⟩ <;>
    simp [vpcTrace, lbTrace, allocatedIds, allocated, produced, reportedIds,
      reportedVals, printedLines, List.contains]

/-- Instantiation of `C7_amended_reporting` at the concrete benign
environment. -/
theorem C7_amended_reporting_witness :
    (allocatedIds (Vpc.main cleanEnv).state.trace).all
      (fun i => (reportedIds (Vpc.main cleanEnv).state.trace).contains i) = true ∧
    (Vpc.main cleanEnv).state.finalIp = some "54.100.20.30" ∧
    reportedIds (VpcLb.main cleanEnv).state.trace = [8, 9, 1, 4, 5, 8, 9] :=
  have h := C7_amended_reporting cleanEnv.keyResp cleanEnv.publicIp cleanEnv.dnsName
    cleanEnv.now cleanEnv.failErr ⟨"ami-0abcdef1234567890", "2024-05-01T00:00:00.000Z"⟩ []
    (Or.inl ⟨"PRIVATE-KEY-MATERIAL", rfl⟩)
  ⟨h.1, h.2.1, h.2.2.2.2.1⟩

def isCreateVpcCall : ApiCall → Bool
  | .createVpc _ _ => true
  | _ => false

def isCreateSubnetCall : ApiCall → Bool
  | .createSubnet _ _ _ _ => true
  | _ => false

def isCreateSgCall : ApiCall → Bool
  | .createSecurityGroup _ _ _ => true
  | _ => false

def isRunInstancesCall : ApiCall → Bool
  | .runInstances _ _ _ _ _ _ _ => true
  | _ => false

set_option maxHeartbeats 1000000 in
/-- Claim C9: every single-instance run that completes without a provider
error — at least one matching image, a benign key-pair outcome, and a
provider-assigned (hence non-empty) public address — creates exactly one
network, one subnet, one security group and one instance, invokes the
running waiter on that instance, and ends holding that instance's
non-empty public address string. -/
theorem C9_single_instance_scenario
    (r : CallResp) (ip dns : String) (nw : Nat) (e : Exc) (img : Image) (rest : List Image)
    (hr : benignKeyResp r) (hip : ip ≠ "") :
    ∃ s, Vpc.main ⟨r, img :: rest, ip, dns, nw, none, e⟩ = .normalExit s ∧
      countCalls isCreateVpcCall s.trace = 1 ∧
      countCalls isCreateSubnetCall s.trace = 1 ∧
      countCalls isCreateSgCall s.trace = 1 ∧
      countCalls isRunInstancesCall s.trace = 1 ∧
      launchedIds s.trace = [6] ∧
      (ApiCall.waitInstanceRunning [6]) ∈ s.trace ∧
      s.finalIp = some ip ∧ ip ≠ "" := by
  obtain ⟨km, rfl⟩ | rfl := hr
  · refine ⟨vpcState true (some ⟨km, 256⟩) ip, vpc_main_ok km ip dns nw e img rest,
      ?_, ?_, ?_, ?_, ?_, ?_, rfl, hip⟩ <;>
      simp [vpcState, vpcTrace, countCalls, isCreateVpcCall, isCreateSubnetCall,
        isCreateSgCall, isRunInstancesCall, launchedIds]
  · refine ⟨vpcState false none ip, vpc_main_dup ip dns nw e img rest,
      ?_, ?_, ?_, ?_, ?_, ?_, rfl, hip⟩ <;>
      simp [vpcState, vpcTrace, countCalls, isCreateVpcCall, isCreateSubnetCall,
        isCreateSgCall, isRunInstancesCall, launchedIds]

/-- Instantiation of `C9_single_instance_scenario` at the concrete benign
environment. -/
theorem C9_single_instance_scenario_witness :
    ∃ s, Vpc.main cleanEnv = .normalExit s ∧
      countCalls isCreateVpcCall s.trace = 1 ∧
      countCalls isCreateSubnetCall s.trace = 1 ∧
      countCalls isCreateSgCall s.trace = 1 ∧
      countCalls isRunInstancesCall s.trace = 1 ∧
      launchedIds s.trace = [6] ∧
      (ApiCall.waitInstanceRunning [6]) ∈ s.trace ∧
      s.finalIp = some "54.100.20.30" ∧ "54.100.20.30" ≠ "" :=
  C9_single_instance_scenario cleanEnv.keyResp cleanEnv.publicIp cleanEnv.dnsName
    cleanEnv.now cleanEnv.failErr ⟨"ami-0abcdef1234567890", "2024-05-01T00:00:00.000Z"⟩ []
    (Or.inl ⟨"PRIVATE-KEY-MATERIAL", rfl⟩) (by decide)

set_option maxHeartbeats 12000000 in
/-- Claim C8: unexpected provider errors (anything but the duplicate-name
key-pair error) propagate uncaught past every individual provisioning
step of both pipelines — an error injected at any call index aborts the
run right there, with no further provider call issued.  In the
single-instance variant every pipeline outcome is absorbed by the generic
top-level handler, which prints the error and returns normally; in the
load-balanced variant a pipeline error escapes `main` uncaught. -/
theorem C8_error_propagation :
    (∀ env : Env, ∃ s, Vpc.main env = .normalExit s) ∧
    (∀ (env : Env) (e : Exc) (s : RunState), Vpc.run env = .error e s →
        Vpc.main env = .normalExit { s with trace := s.trace ++ [.printLine (errLine e)] }) ∧
    (∀ (env : Env) (e : Exc) (s : RunState), VpcLb.run env = .error e s →
        VpcLb.main env = .uncaught e s) ∧
    (∀ (km ip dns : String) (nw : Nat) (e : Exc) (img : Image) (rest : List Image) (n : Nat),
        unexpectedErr e = true → n < 18 →
        match Vpc.run ⟨.ok km, img :: rest, ip, dns, nw, some n, e⟩ with
        | .error e2 s2 => e2 = e ∧ s2.calls = n + 1 ∧ apiCount s2.trace = n + 1
        | .ok _ _ => False) ∧
    (∀ (km ip dns : String) (nw : Nat) (e : Exc) (img : Image) (rest : List Image) (n : Nat),
        unexpectedErr e = true → n < 26 →
        match VpcLb.run ⟨.ok km, img :: rest, ip, dns, nw, some n, e⟩ with
        | .error e2 s2 => e2 = e ∧ s2.calls = n + 1 ∧ apiCount s2.trace = n + 1
        | .ok _ _ => False) := by
  refine ⟨?_, ?_, ?_, ?_, ?_⟩
  · intro env
    rcases h : Vpc.run env with ⟨u, s⟩ | ⟨e, s⟩
    · exact ⟨s, by simp [Vpc.main, h]⟩
    · exact ⟨{ s with trace := s.trace ++ [.printLine (errLine e)] }, by simp [Vpc.main, h]⟩
  · intro env e s h
    simp [Vpc.main, h]
  · intro env e s h
    simp [VpcLb.main, h]
  · intro km ip dns nw e img rest n he hn
    interval_cases n
    · rcases e with m | m
      · have hm : strContains m dupToken = false := by
          simpa [unexpectedErr] using he
        simp [Vpc.run, Vpc.pipeline, Vpc.create_key_pair_step, Vpc.ami_step,
          mapSubnetCall, runInstancesCall, describeInstancesCall,
          M_run_bind, M_run_get, M_run_set, M_run_pure, M_run_throw, emit_run,
          apiCall_run, apiCreate_run, M_run_modify,
          initState, create_key_pair, Vpc.latest_ubuntu_ami, List.lookup, pyOpt,
          apiCount, isProviderCall, hm]
      · simp [Vpc.run, Vpc.pipeline, Vpc.create_key_pair_step, Vpc.ami_step,
          mapSubnetCall, runInstancesCall, describeInstancesCall,
          M_run_bind, M_run_get, M_run_set, M_run_pure, M_run_throw, emit_run,
          apiCall_run, apiCreate_run, M_run_modify,
          initState, create_key_pair, Vpc.latest_ubuntu_ami, List.lookup, pyOpt,
          apiCount, isProviderCall]
    all_goals
      simp [Vpc.run, Vpc.pipeline, Vpc.create_key_pair_step, Vpc.ami_step,
        mapSubnetCall, runInstancesCall, describeInstancesCall,
        M_run_bind, M_run_get, M_run_set, M_run_pure, M_run_throw, emit_run,
        apiCall_run, apiCreate_run, M_run_modify,
        initState, create_key_pair, Vpc.latest_ubuntu_ami, List.lookup, pyOpt,
        apiCount, isProviderCall]
  · intro km ip dns nw e img rest n he hn
    interval_cases n
    · rcases e with m | m
      · have hm : strContains m dupToken = false := by
          simpa [unexpectedErr] using he
        simp [VpcLb.run, VpcLb.pipeline, VpcLb.ensure_key_pair_step, VpcLb.ami_step,
          mapSubnetCall, runInstancesCall, describeInstancesCall,
          M_run_bind, M_run_get, M_run_set, M_run_pure, M_run_throw, emit_run,
          apiCall_run, apiCreate_run, M_run_modify,
          initState, ensure_key_pair, create_key_pair, VpcLb.latest_ubuntu_ami,
          List.lookup, pyOpt, apiCount, isProviderCall, hm]
      · simp [VpcLb.run, VpcLb.pipeline, VpcLb.ensure_key_pair_step, VpcLb.ami_step,
          mapSubnetCall, runInstancesCall, describeInstancesCall,
          M_run_bind, M_run_get, M_run_set, M_run_pure, M_run_throw, emit_run,
          apiCall_run, apiCreate_run, M_run_modify,
          initState, ensure_key_pair, create_key_pair, VpcLb.latest_ubuntu_ami,
          List.lookup, pyOpt, apiCount, isProviderCall]
    all_goals
      simp [VpcLb.run, VpcLb.pipeline, VpcLb.ensure_key_pair_step, VpcLb.ami_step,
        mapSubnetCall, runInstancesCall, describeInstancesCall,
        M_run_bind, M_run_get, M_run_set, M_run_pure, M_run_throw, emit_run,
        apiCall_run, apiCreate_run, M_run_modify,
        initState, ensure_key_pair, create_key_pair, VpcLb.latest_ubuntu_ami,
        List.lookup, pyOpt, apiCount, isProviderCall]

/-- Instantiation of `C8_error_propagation`: the benign environment for
the catch-all conjunct, and a quota error injected at call 5 of the
single-instance pipeline and call 21 (the waiter) of the load-balanced
pipeline. -/
theorem C8_error_propagation_witness :
    (∃ s, Vpc.main cleanEnv = .normalExit s) ∧
    (match Vpc.run ⟨.ok "KM", [⟨"ami-1", "2024"⟩], "1.2.3.4", "d.example", 0, some 5,
        .otherError "RequestLimitExceeded"⟩ with
     | .error e2 s2 => e2 = .otherError "RequestLimitExceeded" ∧ s2.calls = 6 ∧
        apiCount s2.trace = 6
     | .ok _ _ => False) ∧
    (match VpcLb.run ⟨.ok "KM", [⟨"ami-1", "2024"⟩], "1.2.3.4", "d.example", 0, some 21,
        .otherError "RequestLimitExceeded"⟩ with
     | .error e2 s2 => e2 = .otherError "RequestLimitExceeded" ∧ s2.calls = 22 ∧
        apiCount s2.trace = 22
     | .ok _ _ => False) :=
  ⟨C8_error_propagation.1 cleanEnv,
   C8_error_propagation.2.2.2.1 "KM" "1.2.3.4" "d.example" 0
     (.otherError "RequestLimitExceeded") ⟨"ami-1", "2024"⟩ [] 5 (by decide) (by decide),
   C8_error_propagation.2.2.2.2 "KM" "1.2.3.4" "d.example" 0
     (.otherError "RequestLimitExceeded") ⟨"ami-1", "2024"⟩ [] 21 (by decide) (by decide)⟩
